import Mathlib

set_option maxRecDepth 8000

namespace TalosTelemetry

/-!
Shallow embedding of the pattern-significance and maintenance engine of
talos-telemetry.  Each definition is translated from the named Python
source function; machine behaviour (dict access truthiness, list order,
query LIMIT clauses) is modelled explicitly.
-/

/-! ### Significance engine (src/talos_telemetry/mcp/patterns.py) -/

/-- The findings dictionary assembled by `pattern_check`.  Only the fields
read by `_calculate_significance` are carried per item: the `severity`
value of each recurring-friction entry (`f.get("severity")`, absent keys
give `none`) and the `resolved` value of each belief-contradiction entry
(`c.get("resolved")`). -/
structure Findings where
  recurring_friction : List (Option String)
  emerging_patterns : List Unit
  confirmed_patterns : List Unit
  belief_contradictions : List (Option Bool)
  unresolved_questions : List Unit
  friction_insight_chains : List Unit
deriving DecidableEq, Repr

/-- Return value of `_calculate_significance`. -/
structure Significance where
  score : Nat
  warrants_evolution : Bool
  high_severity_friction : Nat
  recurring_friction_count : Nat
  emerging_patterns_count : Nat
  confirmed_patterns_count : Nat
  unresolved_contradictions : Nat
  unresolved_questions_count : Nat
  friction_insight_chains_count : Nat
  recommendation : String
deriving DecidableEq, Repr

/-- `_get_recommendation` from patterns.py. -/
def get_recommendation (score : Nat) (warrants_evolution : Bool) : String :=
  if 50 ≤ score then
    "URGENT: Multiple significant patterns detected. Evolution proposal strongly recommended."
  else if 30 ≤ score then
    "ATTENTION: Notable patterns emerging. Consider Evolution proposal."
  else if warrants_evolution then
    "REVIEW: Threshold met for Evolution proposal. Review findings."
  else if 15 ≤ score then
    "MONITOR: Patterns developing. Continue observation."
  else
    "STABLE: No significant patterns detected. System operating normally."

/-- Number of recurring-friction entries whose severity is "high"
(`sum(1 for f in findings["recurring_friction"] if f.get("severity") == "high")`). -/
def highSeverityCount (rf : List (Option String)) : Nat :=
  (rf.filter (fun s => decide (s = some "high"))).length

/-- Number of contradiction entries whose resolved flag is falsy
(`sum(1 for c in findings["belief_contradictions"] if not c.get("resolved"))`;
`None` and `False` are both falsy). -/
def unresolvedContradictionCount (bc : List (Option Bool)) : Nat :=
  (bc.filter (fun r => decide (¬ r = some true))).length

/-- `_calculate_significance` from patterns.py. -/
def calculate_significance (findings : Findings) : Significance :=
  let recurring_friction_count := findings.recurring_friction.length
  let high_severity_friction := highSeverityCount findings.recurring_friction
  let emerging_patterns_count := findings.emerging_patterns.length
  let confirmed_patterns_count := findings.confirmed_patterns.length
  let unresolved_contradictions := unresolvedContradictionCount findings.belief_contradictions
  let unresolved_questions_count := findings.unresolved_questions.length
  let friction_insight_chains_count := findings.friction_insight_chains.length
  let score :=
    min (high_severity_friction * 15) 30 +
    min (recurring_friction_count * 5) 20 +
    min (emerging_patterns_count * 5) 15 +
    min (confirmed_patterns_count * 3) 10 +
    min (unresolved_contradictions * 10) 20 +
    min (unresolved_questions_count * 2) 5
  let warrants_evolution :=
    decide (1 ≤ high_severity_friction) ||
    decide (2 ≤ recurring_friction_count) ||
    decide (1 ≤ unresolved_contradictions) ||
    decide (3 ≤ emerging_patterns_count)
  { score := score
    warrants_evolution := warrants_evolution
    high_severity_friction := high_severity_friction
    recurring_friction_count := recurring_friction_count
    emerging_patterns_count := emerging_patterns_count
    confirmed_patterns_count := confirmed_patterns_count
    unresolved_contradictions := unresolved_contradictions
    unresolved_questions_count := unresolved_questions_count
    friction_insight_chains_count := friction_insight_chains_count
    recommendation := get_recommendation score warrants_evolution }

/-- Findings with exactly one high-severity friction entry and every other
category empty (the instance named by claim C3). -/
def findingsOneHigh : Findings :=
  { recurring_friction := [some "high"]
    emerging_patterns := []
    confirmed_patterns := []
    belief_contradictions := []
    unresolved_questions := []
    friction_insight_chains := [] }

/-- Example findings reaching each recommendation band. -/
def findingsUrgent : Findings :=
  { recurring_friction := [some "high", some "high", some "medium", some "medium"]
    emerging_patterns := []
    confirmed_patterns := []
    belief_contradictions := []
    unresolved_questions := []
    friction_insight_chains := [] }

def findingsAttention : Findings :=
  { recurring_friction := [some "high", some "medium"]
    emerging_patterns := []
    confirmed_patterns := []
    belief_contradictions := [some false]
    unresolved_questions := []
    friction_insight_chains := [] }

def findingsMonitor : Findings :=
  { recurring_friction := []
    emerging_patterns := [(), ()]
    confirmed_patterns := [(), ()]
    belief_contradictions := []
    unresolved_questions := []
    friction_insight_chains := [] }

def findingsEmpty : Findings :=
  { recurring_friction := []
    emerging_patterns := []
    confirmed_patterns := []
    belief_contradictions := []
    unresolved_questions := []
    friction_insight_chains := [] }

/-- Findings used to witness high-severity saturation in claim C4. -/
def findingsThreeHigh : Findings :=
  { recurring_friction := [some "high", some "high", some "high"]
    emerging_patterns := []
    confirmed_patterns := []
    belief_contradictions := []
    unresolved_questions := []
    friction_insight_chains := [] }

/-! ### pattern_check control flow (src/talos_telemetry/mcp/patterns.py) -/

/-- Return value of `pattern_check` as far as findings/significance/error
structure is concerned (proposal-file generation is filesystem I/O and is
not part of the graph-state model). -/
structure PatternCheckResult where
  success : Bool
  findings : Option Findings
  significance : Option Significance
  error : Option String
deriving Repr

/-- Whether a finding query completed without raising. -/
def isOkB {α : Type} : Except String α → Bool
  | .ok _ => true
  | .error _ => false

/-- The exception that escapes the `try` block of `pattern_check`: the six
finding queries run in dict-literal order and the first raise aborts the
rest. -/
def firstFindingError
    (q1 : Except String (List (Option String)))
    (q2 : Except String (List Unit))
    (q3 : Except String (List Unit))
    (q4 : Except String (List (Option Bool)))
    (q5 : Except String (List Unit))
    (q6 : Except String (List Unit)) : Option String :=
  match q1 with
  | .error e => some e
  | .ok _ =>
    match q2 with
    | .error e => some e
    | .ok _ =>
      match q3 with
      | .error e => some e
      | .ok _ =>
        match q4 with
        | .error e => some e
        | .ok _ =>
          match q5 with
          | .error e => some e
          | .ok _ =>
            match q6 with
            | .error e => some e
            | .ok _ => none

/-- `pattern_check` from patterns.py, parameterized by the outcome of each
of the six finding queries (each either returns its rows or raises).  The
source builds the findings dict inside one `try:` block: the six helper
calls run in order and a single `except Exception` at the bottom catches
any raise, returning `success=False` with only the error string. -/
def pattern_check
    (q1 : Except String (List (Option String)))
    (q2 : Except String (List Unit))
    (q3 : Except String (List Unit))
    (q4 : Except String (List (Option Bool)))
    (q5 : Except String (List Unit))
    (q6 : Except String (List Unit)) : PatternCheckResult :=
  match (do
      let rf ← q1
      let ep ← q2
      let cp ← q3
      let bc ← q4
      let uq ← q5
      let fic ← q6
      pure { recurring_friction := rf
             emerging_patterns := ep
             confirmed_patterns := cp
             belief_contradictions := bc
             unresolved_questions := uq
             friction_insight_chains := fic } :
    Except String Findings) with
  | .error e =>
    { success := false, findings := none, significance := none, error := some e }
  | .ok f =>
    { success := true, findings := some f,
      significance := some (calculate_significance f), error := none }

/-! ### Pattern finding queries (src/talos_telemetry/mcp/patterns.py) -/

def FRICTION_RECURRENCE_THRESHOLD : Nat := 3
def PATTERN_EMERGENCE_THRESHOLD : Nat := 2
def PATTERN_CONFIRMATION_THRESHOLD : Nat := 5

/-- A Pattern node, with the properties the two pattern queries read. -/
structure Pattern where
  id : String
  name : String
  occurrence_count : Nat
  status : Option String
deriving DecidableEq, Repr

/-- WHERE clause of `_find_emerging_patterns`: occurrence_count within
the emergence band and status NULL or 'emerging'. -/
def emergingCond (p : Pattern) : Bool :=
  decide (PATTERN_EMERGENCE_THRESHOLD ≤ p.occurrence_count) &&
  decide (p.occurrence_count < PATTERN_CONFIRMATION_THRESHOLD) &&
  (decide (p.status = none) || decide (p.status = some "emerging"))

/-- WHERE clause of `_find_confirmed_patterns`. -/
def confirmedCond (p : Pattern) : Bool :=
  decide (PATTERN_CONFIRMATION_THRESHOLD ≤ p.occurrence_count)

/-- ORDER BY occurrence_count DESC, modelled as insertion sort (ties keep
an unspecified store order; the store guarantees only the ordering key). -/
def insertByCountDesc (p : Pattern) : List Pattern → List Pattern
  | [] => [p]
  | q :: qs =>
    if q.occurrence_count < p.occurrence_count then p :: q :: qs
    else q :: insertByCountDesc p qs

def sortByCountDesc : List Pattern → List Pattern
  | [] => []
  | p :: ps => insertByCountDesc p (sortByCountDesc ps)

/-- `_find_emerging_patterns`: filter, ORDER BY count DESC, LIMIT 20. -/
def find_emerging_patterns (ps : List Pattern) : List Pattern :=
  (sortByCountDesc (ps.filter emergingCond)).take 20

/-- `_find_confirmed_patterns`: filter, ORDER BY count DESC, LIMIT 20. -/
def find_confirmed_patterns (ps : List Pattern) : List Pattern :=
  (sortByCountDesc (ps.filter confirmedCond)).take 20

/-- A store of 21 Pattern nodes, all at occurrence_count 4 with status
'emerging' (used to exhibit the LIMIT 20 cap). -/
def mkEmergingPat (s : String) : Pattern :=
  { id := s, name := "tendency", occurrence_count := 4, status := some "emerging" }

def patterns21 : List Pattern :=
  [mkEmergingPat "p01", mkEmergingPat "p02", mkEmergingPat "p03", mkEmergingPat "p04",
   mkEmergingPat "p05", mkEmergingPat "p06", mkEmergingPat "p07", mkEmergingPat "p08",
   mkEmergingPat "p09", mkEmergingPat "p10", mkEmergingPat "p11", mkEmergingPat "p12",
   mkEmergingPat "p13", mkEmergingPat "p14", mkEmergingPat "p15", mkEmergingPat "p16",
   mkEmergingPat "p17", mkEmergingPat "p18", mkEmergingPat "p19", mkEmergingPat "p20",
   mkEmergingPat "p21"]

/-! ### friction_log (src/talos_telemetry/mcp/friction.py) -/

def validCategories : List String :=
  ["tooling", "conceptual", "process", "environmental", "relational"]

/-- A Friction node with the properties `friction_log` reads and writes.
Entity ids are modelled as naturals supplied by a freshness parameter
(the source derives them from timestamp and uuid).  Descriptions are
character lists so that the query's lowercase substring match is explicit.
Cypher-literal escaping in the source round-trips through the query
parser, so the stored description equals the logged description. -/
structure Friction where
  id : Nat
  description : List Char
  recurrence_count : Nat
deriving DecidableEq, Repr

def lowerChars (l : List Char) : List Char := l.map Char.toLower

/-- Does `needle` occur at the head of `hay`? -/
def leadMatch : List Char → List Char → Bool
  | [], _ => true
  | _ :: _, [] => false
  | a :: as, b :: bs => a == b && leadMatch as bs

/-- Does `needle` occur anywhere in `hay` (the CONTAINS operator)? -/
def containsSeq (needle : List Char) : List Char → Bool
  | [] => needle.isEmpty
  | b :: bs => leadMatch needle (b :: bs) || containsSeq needle bs

/-- WHERE clause of `_find_similar_friction`:
`toLower(f.description) CONTAINS search_term`. -/
def frictionMatches (searchTerm : List Char) (f : Friction) : Bool :=
  containsSeq searchTerm (lowerChars f.description)

/-- `_find_similar_friction`: substring match on the lowercased first 50
characters of the description, LIMIT 5. -/
def find_similar_friction (st : List Friction) (description : List Char) :
    List Friction :=
  (st.filter (frictionMatches (lowerChars (description.take 50)))).take 5

/-- Return value of `friction_log` (fields are `none` on the invalid
category early return, which produces no such keys). -/
structure FrictionLogResult where
  success : Bool
  friction_id : Option Nat
  is_recurring : Option Bool
  recurrence_count : Option Nat
deriving DecidableEq, Repr

/-- `friction_log`: validate the category, look for a similar existing
Friction; increment the first match (`row[2] or 1` turns a zero/NULL
stored count into 1) or create a new node with count 1. -/
def friction_log (fresh : Nat) (description : List Char) (category : String)
    (st : List Friction) : FrictionLogResult × List Friction :=
  if category ∈ validCategories then
    match find_similar_friction st description with
    | [] =>
      ({ success := true, friction_id := some fresh, is_recurring := some false,
         recurrence_count := some 1 },
       st ++ [{ id := fresh, description := description, recurrence_count := 1 }])
    | existing :: _ =>
      let stored := if existing.recurrence_count = 0 then 1
                    else existing.recurrence_count
      let newCount := stored + 1
      ({ success := true, friction_id := some existing.id,
         is_recurring := some true, recurrence_count := some newCount },
       st.map fun f =>
         if f.id = existing.id then { f with recurrence_count := newCount } else f)
  else
    ({ success := false, friction_id := none, is_recurring := none,
       recurrence_count := none }, st)

/-- Graph state after `k` calls of `friction_log` with one fixed
description and category (call `i` is offered fresh id `fresh + i`). -/
def frictionRun (fresh : Nat) (description : List Char) (category : String)
    (st : List Friction) : Nat → List Friction
  | 0 => st
  | k + 1 =>
    (friction_log (fresh + k) description category
      (frictionRun fresh description category st k)).2

/-- Return value of the `k`-th call (1-based). -/
def frictionResultAt (fresh : Nat) (description : List Char) (category : String)
    (st : List Friction) (k : Nat) : FrictionLogResult :=
  (friction_log (fresh + (k - 1)) description category
    (frictionRun fresh description category st (k - 1))).1

/-! ### Protector: stale-question marking (src/talos_telemetry/librarians/protector.py) -/

/-- A Question node with the properties `_mark_stale_questions` reads. -/
structure Question where
  id : String
  resolved_at : Option Int
  raised_at : Int
  urgency : Option String
deriving DecidableEq, Repr

/-- WHERE clause of `_mark_stale_questions`: unresolved, raised before the
cutoff, and urgency NULL or not already 'abandoned'. -/
def staleCond (cutoff : Int) (q : Question) : Bool :=
  decide (q.resolved_at = none) && decide (q.raised_at < cutoff) &&
  decide (¬ q.urgency = some "abandoned")

/-- Effect of the SET clause on one matched row. -/
def markAbandoned (cutoff : Int) (q : Question) : Question :=
  if staleCond cutoff q then { q with urgency := some "abandoned" } else q

/-- `_mark_stale_questions`: one query that sets `urgency = 'abandoned'`
on every matched Question and returns the matched-row count. -/
def mark_stale_questions (cutoff : Int) (qs : List Question) :
    Nat × List Question :=
  ((qs.filter (staleCond cutoff)).length, qs.map (markAbandoned cutoff))

/-! ### Graph store model, Protector deduplication
(src/talos_telemetry/librarians/protector.py) -/

/-- A graph node.  Entity ids are globally unique across types (a spec
invariant), so edges reference endpoint ids. -/
structure Node where
  ntype : String
  id : String
  content : String
deriving DecidableEq, Repr

structure Edge where
  src : String
  dst : String
  rtype : String
  attrs : List (String × String)
deriving DecidableEq, Repr

structure Graph where
  nodes : List Node
  edges : List Edge
deriving DecidableEq, Repr

def hasNode (g : Graph) (ntype nid : String) : Bool :=
  g.nodes.any fun n => decide (n.ntype = ntype) && decide (n.id = nid)

/-- The relationship-type token the redirect queries of
`Protector._merge_entities` interpolate into their CREATE clause.  The
source is an f-string, so its doubled braces render literally and the
query text reads `CREATE (keep)-[r2:\x7btype(r)\x7d]->(target)`: the
token is the nine characters of "\x7btype(r)\x7d", not a dynamic
relationship type. -/
def redirectRelTypeToken : String := "\x7btype(r)\x7d"

/-- Kuzu's parser accepts only identifier tokens (letters, digits,
underscores) as a relationship type in a pattern; anything else is a
parse error.  (Kuzu has no dynamic relationship types at all.) -/
def validRelTypeToken (s : String) : Bool :=
  !s.data.isEmpty && s.data.all fun c => c.isAlphanum || c == '_'

/-- First statement of `_merge_entities`: redirect the removed entity's
outgoing relationships to the kept entity.  Parsing fails unless the
interpolated relationship-type token is a valid identifier; when it
parses, the CREATE clause carries the type token but no property map
(attributes are not copied), and rows match only when both endpoints
exist. -/
def execRedirectOutgoing (g : Graph) (etype keepId removeId : String) :
    Except String Graph :=
  if validRelTypeToken redirectRelTypeToken then
    .ok (if hasNode g etype removeId && hasNode g etype keepId then
      { g with edges := g.edges.map fun e =>
          if e.src = removeId then
            { src := keepId, dst := e.dst, rtype := redirectRelTypeToken, attrs := [] }
          else e }
    else g)
  else
    .error "Parser exception: invalid relationship type token"

/-- Second statement of `_merge_entities`: redirect the removed entity's
incoming relationships; same query shape, same invalid token. -/
def execRedirectIncoming (g : Graph) (etype keepId removeId : String) :
    Except String Graph :=
  if validRelTypeToken redirectRelTypeToken then
    .ok (if hasNode g etype removeId && hasNode g etype keepId then
      { g with edges := g.edges.map fun e =>
          if e.dst = removeId then
            { src := e.src, dst := keepId, rtype := redirectRelTypeToken, attrs := [] }
          else e }
    else g)
  else
    .error "Parser exception: invalid relationship type token"

/-- Third statement of `_merge_entities`: a plain (non-DETACH) DELETE of
the removed node, which raises while any relationship still touches it. -/
def execDeleteNode (g : Graph) (etype removeId : String) :
    Except String Graph :=
  if g.edges.any fun e => decide (e.src = removeId) || decide (e.dst = removeId) then
    .error "Runtime exception: node still has relationships"
  else
    .ok { g with nodes := g.nodes.filter fun n =>
        !(decide (n.ntype = etype) && decide (n.id = removeId)) }

/-- `Protector._merge_entities`: the three statements run inside one
try/except; the first exception is caught, an error line is appended to
the report, and whatever state the earlier statements left persists.
Because the redirect queries' relationship-type token is the literal
text "\x7btype(r)\x7d", the very first statement raises a parse error,
so the function never redirects or deletes anything: it returns the
graph unchanged with an error report. -/
def merge_entities (g : Graph) (etype keepId removeId : String) :
    Graph × List String :=
  match execRedirectOutgoing g etype keepId removeId with
  | .error e => (g, ["Error merging entities: " ++ e])
  | .ok g1 =>
    match execRedirectIncoming g1 etype keepId removeId with
    | .error e => (g1, ["Error merging entities: " ++ e])
    | .ok g2 =>
      match execDeleteNode g2 etype removeId with
      | .error e => (g2, ["Error merging entities: " ++ e])
      | .ok g3 => (g3, [])

/-- The self-join of `_deduplicate_entities` for one entity type: ordered
pairs (keep, remove) with `id1 < id2` and equal content, in store scan
order; the result set is materialized before the merges run. -/
def duplicatePairs (g : Graph) (etype : String) : List (String × String) :=
  let ns := g.nodes.filter fun n => decide (n.ntype = etype)
  ns.flatMap fun n1 =>
    (ns.filter fun n2 =>
        decide (n1.id.data < n2.id.data) && decide (n1.content = n2.content)).map
      fun n2 => (n1.id, n2.id)

/-- `Protector._deduplicate_entities`: find duplicate Beliefs and call
`_merge_entities` on each pair, then duplicate Insights likewise; only
these two entity types are scanned.  The `merged` counter is incremented
after every call — `_merge_entities` never raises past its own boundary
— so the reported count grows even when the merge itself failed.
Returns (merged count, graph). -/
def deduplicate_entities (g : Graph) : Nat × Graph :=
  let a1 := (duplicatePairs g "Belief").foldl
    (fun acc pr => (acc.1 + 1, (merge_entities acc.2 "Belief" pr.1 pr.2).1)) (0, g)
  (duplicatePairs a1.2 "Insight").foldl
    (fun acc pr => (acc.1 + 1, (merge_entities acc.2 "Insight" pr.1 pr.2).1)) a1

/-- Dedup scenario: duplicate Beliefs "a" and "b" (same content), where
"a" has an outgoing edge to "xx" (with an attribute) and "b" has an
outgoing edge to "yy" carrying attribute confidence 0.9. -/
def dedupScenario : Graph :=
  { nodes := [{ ntype := "Belief", id := "a", content := "dup" },
              { ntype := "Belief", id := "b", content := "dup" },
              { ntype := "Insight", id := "xx", content := "tx" },
              { ntype := "Insight", id := "yy", content := "ty" }],
    edges := [{ src := "a", dst := "xx", rtype := "SUPPORTS",
                attrs := [("valid_from", "t1")] },
              { src := "b", dst := "yy", rtype := "SUPPORTS",
                attrs := [("confidence", "0.9")] }] }

/-! ### Synthesizer: observation consolidation
(src/talos_telemetry/librarians/synthesizer.py) -/

/-- 0.85, as an explicit reduced fraction (see
`SIMILARITY_THRESHOLD_eq_decimal`). -/
def SIMILARITY_THRESHOLD : ℚ := ⟨17, 20, by decide, by decide⟩
def MIN_OBSERVATIONS_FOR_INSIGHT : Nat := 2

/-- An Observation row as read by `_consolidate_observations`. -/
structure Obs where
  id : Nat
  content : String
  embedding : Option (List ℚ)
  domain : String
  observed_at : Int
deriving DecidableEq, Repr

/-- Python truthiness of an embedding value
(`if obs1["embedding"] and obs2["embedding"]`). -/
def embTruthy : Option (List ℚ) → Bool
  | none => false
  | some v => !v.isEmpty

/-- Inner loop of `_group_by_similarity`: scan the observations after the
seed, claiming each unclaimed one whose cosine similarity with the seed
meets the threshold.  `sim` abstracts the embedding provider's
`cosine_similarity`. -/
def joinGroup (sim : Obs → Obs → ℚ) (seed : Obs) :
    List Obs → List Nat → List Obs × List Nat
  | [], used => ([], used)
  | o :: rest, used =>
    if o.id ∈ used then joinGroup sim seed rest used
    else if embTruthy seed.embedding && embTruthy o.embedding &&
        decide (SIMILARITY_THRESHOLD ≤ sim seed o) then
      let p := joinGroup sim seed rest (o.id :: used)
      (o :: p.1, p.2)
    else joinGroup sim seed rest used

/-- Outer loop of `_group_by_similarity`: the first unclaimed observation
seeds a group; singleton groups are discarded; no re-clustering. -/
def groupLoop (sim : Obs → Obs → ℚ) : List Obs → List Nat → List (List Obs)
  | [], _ => []
  | o :: rest, used =>
    if o.id ∈ used then groupLoop sim rest used
    else
      let p := joinGroup sim o rest (o.id :: used)
      if 1 < (o :: p.1).length then (o :: p.1) :: groupLoop sim rest p.2
      else groupLoop sim rest p.2

def group_by_similarity (sim : Obs → Obs → ℚ) (observations : List Obs) :
    List (List Obs) :=
  groupLoop sim observations []

/-- An Insight created by `_merge_into_insight`. -/
structure Insight where
  id : Nat
  content : String
  domain : String
  confidence : ℚ
deriving DecidableEq, Repr

/-- Content combination in `_merge_into_insight`: join the first three
contents, then a "+N more" marker. -/
def combinedContent (contents : List String) : String :=
  String.intercalate " | " (contents.take 3) ++
    (if 3 < contents.length then
      " | (+" ++ toString (contents.length - 3) ++ " more)"
     else "")

/-- `_merge_into_insight`: create one Insight (confidence 0.7, domain of
the first member) and a MERGED_INTO edge from every member observation. -/
def merge_into_insight (freshId : Nat) (group : List Obs) :
    Insight × List (Nat × Nat) :=
  ({ id := freshId,
     content := combinedContent (group.map fun o => o.content),
     domain := ((group.head?).map fun o => o.domain).getD "general",
     confidence := ⟨7, 10, by decide, by decide⟩ },
   group.map fun o => (o.id, freshId))

def createInsights (freshBase : Nat) :
    List (List Obs) → List Insight × List (Nat × Nat)
  | [] => ([], [])
  | grp :: rest =>
    let mi := merge_into_insight freshBase grp
    let tl := createInsights (freshBase + 1) rest
    (mi.1 :: tl.1, mi.2 ++ tl.2)

/-- Graph state seen by the Synthesizer. -/
structure SynthState where
  observations : List Obs
  insights : List Insight
  mergedInto : List (Nat × Nat)
deriving DecidableEq, Repr

/-- `_consolidate_observations`: select observations older than the age
cutoff, group greedily by similarity, and merge every group of at least
MIN_OBSERVATIONS_FOR_INSIGHT members into a new Insight with MERGED_INTO
edges.  The function issues only CREATE statements: no Observation is
updated or deleted. -/
def consolidate_observations (sim : Obs → Obs → ℚ) (cutoff : Int)
    (freshBase : Nat) (st : SynthState) : SynthState :=
  let old := st.observations.filter fun o => decide (o.observed_at < cutoff)
  let groups := group_by_similarity sim old
  let eligible := groups.filter fun grp =>
    decide (MIN_OBSERVATIONS_FOR_INSIGHT ≤ grp.length)
  let created := createInsights freshBase eligible
  { observations := st.observations,
    insights := st.insights ++ created.1,
    mergedInto := st.mergedInto ++ created.2 }

/-- Consolidation scenario of the spec: cosine similarity is 0.9 within
the trio of observations 1–3 and 0.2 against observation 4. -/
def simScenario : Obs → Obs → ℚ := fun a b =>
  if a.id ≤ 3 && b.id ≤ 3 then ⟨9, 10, by decide, by decide⟩
  else ⟨1, 5, by decide, by decide⟩

def scenarioObs : List Obs :=
  [{ id := 1, content := "a", embedding := some [1], domain := "general",
     observed_at := 0 },
   { id := 2, content := "b", embedding := some [1], domain := "general",
     observed_at := 0 },
   { id := 3, content := "c", embedding := some [1], domain := "general",
     observed_at := 0 },
   { id := 4, content := "d", embedding := some [1], domain := "general",
     observed_at := 0 }]

/-- One consolidation run on the scenario observations in a given store
order (all older than the cutoff), with fresh Insight ids from 100. -/
def scenarioRun (l : List Obs) : SynthState :=
  consolidate_observations simScenario 1 100
    { observations := l, insights := [], mergedInto := [] }

/-- All insertions of `a` into `l` (structural permutation generator,
used to quantify over every store return order). -/
def insertsOf {α : Type} (a : α) : List α → List (List α)
  | [] => [[a]]
  | b :: bs => (a :: b :: bs) :: (insertsOf a bs).map fun t => b :: t

def permsOf {α : Type} : List α → List (List α)
  | [] => [[]]
  | a :: as => (permsOf as).flatMap (insertsOf a)

/-! ### Pathfinder (src/talos_telemetry/librarians/pathfinder.py) -/

/-- Clause kinds appearing in the store queries. -/
inductive Clause
  | matchC | whereC | withC | returnC | orderByC | limitC
  | setC | createC | deleteC | detachDeleteC | mergeC
deriving DecidableEq, Repr

/-- Clauses that write to the store. -/
def clauseMutates : Clause → Bool
  | .setC => true
  | .createC => true
  | .deleteC => true
  | .detachDeleteC => true
  | .mergeC => true
  | _ => false

structure Query where
  clauses : List Clause
deriving DecidableEq, Repr

def queryMutates (q : Query) : Bool := q.clauses.any clauseMutates

def entityTypesWithEmbeddings : List String :=
  ["Insight", "Observation", "Pattern", "Belief", "Decision", "Experience",
   "Friction", "Question", "Sutra", "Goal", "Capability", "Limitation",
   "Protocol", "Reflection"]

/-- The queries `Pathfinder.run` executes, in order, transcribed clause
by clause from pathfinder.py: one missing-embedding count per entity
type (`_check_index_health`), the domain histogram and hub query
(`_generate_pathway_map`), the never-inherited Beliefs and
no-outgoing-edge Insights queries (`_find_underutilized_knowledge`), and
the domain/goal cluster queries (`_identify_semantic_clusters`). -/
def pathfinderRunQueries : List Query :=
  (entityTypesWithEmbeddings.map fun _ =>
    Query.mk [.matchC, .whereC, .returnC]) ++
  [Query.mk [.matchC, .withC, .returnC, .orderByC],
   Query.mk [.matchC, .withC, .whereC, .returnC, .orderByC, .limitC],
   Query.mk [.matchC, .whereC, .returnC, .limitC],
   Query.mk [.matchC, .whereC, .returnC, .limitC],
   Query.mk [.matchC, .withC, .whereC, .returnC, .orderByC],
   Query.mk [.matchC, .whereC, .withC, .whereC, .returnC, .orderByC, .limitC]]

/-- Execute a query stream under a clause semantics `interp`. -/
def runQueries (interp : Graph → Clause → Graph) (g : Graph)
    (qs : List Query) : Graph :=
  qs.foldl (fun acc q => q.clauses.foldl interp acc) g

/-- One concrete clause semantics in which every write clause really
changes the graph. -/
def execClause (g : Graph) : Clause → Graph
  | .createC =>
    { g with nodes := { ntype := "Node", id := "new", content := "" } :: g.nodes }
  | .setC => { g with nodes := g.nodes.map fun n => { n with content := "updated" } }
  | .deleteC => { g with nodes := g.nodes.drop 1 }
  | .detachDeleteC => { nodes := g.nodes.drop 1, edges := [] }
  | .mergeC =>
    { g with edges := { src := "m", dst := "m", rtype := "M", attrs := [] } :: g.edges }
  | _ => g

/-- A sample graph for the read-only witness. -/
def pathfinderSampleGraph : Graph :=
  { nodes := [{ ntype := "Belief", id := "a", content := "x" }],
    edges := [{ src := "a", dst := "a", rtype := "SELF", attrs := [] }] }

end TalosTelemetry

namespace TalosTelemetry

theorem staleCond_markAbandoned (cutoff : Int) (q : Question) :
    staleCond cutoff (markAbandoned cutoff q) = false := by
  unfold markAbandoned
  cases hq : staleCond cutoff q
  · simpa using hq
  · simp [staleCond]

theorem markAbandoned_idem (cutoff : Int) (q : Question) :
    markAbandoned cutoff (markAbandoned cutoff q) = markAbandoned cutoff q := by
  have h := staleCond_markAbandoned cutoff q
  unfold markAbandoned at h ⊢
  simp [h]

theorem mem_insertByCountDesc (x p : Pattern) (l : List Pattern) :
    x ∈ insertByCountDesc p l ↔ x = p ∨ x ∈ l := by
  induction l with
  | nil => simp [insertByCountDesc]
  | cons q qs ih =>
    unfold insertByCountDesc
    by_cases hq : q.occurrence_count < p.occurrence_count
    · simp [hq]
    · simp [hq, ih]
      tauto

theorem mem_sortByCountDesc (x : Pattern) (l : List Pattern) :
    x ∈ sortByCountDesc l ↔ x ∈ l := by
  induction l with
  | nil => simp [sortByCountDesc]
  | cons p ps ih =>
    simp [sortByCountDesc, mem_insertByCountDesc, ih]

theorem length_insertByCountDesc (p : Pattern) (l : List Pattern) :
    (insertByCountDesc p l).length = l.length + 1 := by
  induction l with
  | nil => rfl
  | cons q qs ih =>
    unfold insertByCountDesc
    by_cases hq : q.occurrence_count < p.occurrence_count
    · simp [hq]
    · simp [hq, ih]

theorem length_sortByCountDesc (l : List Pattern) :
    (sortByCountDesc l).length = l.length := by
  induction l with
  | nil => rfl
  | cons p ps ih => simp [sortByCountDesc, length_insertByCountDesc, ih]

theorem leadMatch_take (n : Nat) (l : List Char) :
    leadMatch (l.take n) l = true := by
  induction l generalizing n with
  | nil => cases n <;> rfl
  | cons a l ih =>
    cases n with
    | zero => rfl
    | succ m => simp [leadMatch, ih]

theorem containsSeq_of_leadMatch (needle l : List Char)
    (h : leadMatch needle l = true) : containsSeq needle l = true := by
  cases l with
  | nil =>
    cases needle with
    | nil => rfl
    | cons a as => simp [leadMatch] at h
  | cons b bs => simp [containsSeq, h]

/-- A description always matches its own stored copy: the lowercased
50-character search term is a prefix, hence a substring, of the
lowercased description. -/
theorem containsSeq_take_lower (d : List Char) :
    containsSeq (lowerChars (d.take 50)) (lowerChars d) = true := by
  have h : lowerChars (d.take 50) = (lowerChars d).take 50 := by
    simp [lowerChars, List.map_take]
  rw [h]
  exact containsSeq_of_leadMatch _ _ (leadMatch_take 50 (lowerChars d))

theorem frictionMatches_of_id_update (s : List Char) (i : Nat) (n : Nat)
    (f : Friction) :
    frictionMatches s
      (if f.id = i then { f with recurrence_count := n } else f) =
    frictionMatches s f := by
  by_cases h : f.id = i <;> simp [h, frictionMatches]

theorem frictionRun_zero (fresh : Nat) (d : List Char) (cat : String)
    (st : List Friction) : frictionRun fresh d cat st 0 = st := rfl

theorem frictionRun_succ (fresh : Nat) (d : List Char) (cat : String)
    (st : List Friction) (k : Nat) :
    frictionRun fresh d cat st (k + 1) =
      (friction_log (fresh + k) d cat (frictionRun fresh d cat st k)).2 := rfl

/-- After `k ≥ 1` calls of `friction_log` on a store with no matching
Friction, the store's matching entries are exactly the one Friction
created by the first call, with recurrence_count `k`. -/
theorem frictionRun_filter (fresh : Nat) (d : List Char) (cat : String)
    (st : List Friction) (hcat : cat ∈ validCategories)
    (hclean : st.filter (frictionMatches (lowerChars (d.take 50))) = []) :
    ∀ k, 1 ≤ k →
      (frictionRun fresh d cat st k).filter
          (frictionMatches (lowerChars (d.take 50))) =
        [{ id := fresh, description := d, recurrence_count := k }] := by
  intro k hk
  induction k with
  | zero => omega
  | succ j ih =>
    rcases Nat.eq_zero_or_pos j with hj | hj
    · subst hj
      rw [frictionRun_succ, frictionRun_zero]
      unfold friction_log
      rw [if_pos hcat]
      rw [show find_similar_friction st d = [] by
        unfold find_similar_friction; rw [hclean]; rfl]
      simp [List.filter_append, frictionMatches, hclean, containsSeq_take_lower]
    · have ihj := ih hj
      have hfind : find_similar_friction (frictionRun fresh d cat st j) d =
          [{ id := fresh, description := d, recurrence_count := j }] := by
        unfold find_similar_friction
        rw [ihj]
        rfl
      rw [frictionRun_succ]
      unfold friction_log
      rw [if_pos hcat, hfind]
      have hne : j ≠ 0 := by omega
      simp only [hne, if_false, List.filter_map, Function.comp]
      have heq : List.filter
          (frictionMatches (lowerChars (List.take 50 d)) ∘ fun f =>
            if f.id = fresh then
              { id := f.id, description := f.description, recurrence_count := j + 1 }
             else f)
          (frictionRun fresh d cat st j) =
        List.filter (frictionMatches (lowerChars (List.take 50 d)))
          (frictionRun fresh d cat st j) :=
        List.filter_congr
          (fun f _ => frictionMatches_of_id_update (lowerChars (List.take 50 d)) fresh (j + 1) f)
      rw [heq, ihj]
      simp

end TalosTelemetry

namespace TalosTelemetry

/-- **C1 (counterexample).** The finding queries are not isolated: when the
recurring-friction query alone raises ("missing index") and the other five
succeed with rows, `pattern_check` aborts entirely — `success = false` and
no findings at all are returned, instead of reporting the failed finding
as an empty list alongside the others. -/
theorem pattern_check_not_isolated :
    (pattern_check (.error "missing index") (.ok []) (.ok []) (.ok [])
        (.ok []) (.ok [])).success = false ∧
    (pattern_check (.error "missing index") (.ok []) (.ok []) (.ok [])
        (.ok []) (.ok [])).findings = none :=
  ⟨rfl, rfl⟩

/-- **C1 (amended).** A failure in any one finding query aborts the whole
`pattern_check`: the result is successful (and carries findings) exactly
when all six queries succeed, and otherwise the reported error is the
first query's exception, with no partial findings. -/
theorem pattern_check_failure_aborts
    (q1 : Except String (List (Option String)))
    (q2 : Except String (List Unit))
    (q3 : Except String (List Unit))
    (q4 : Except String (List (Option Bool)))
    (q5 : Except String (List Unit))
    (q6 : Except String (List Unit)) :
    (pattern_check q1 q2 q3 q4 q5 q6).success =
      (isOkB q1 && isOkB q2 && isOkB q3 && isOkB q4 && isOkB q5 && isOkB q6) ∧
    (pattern_check q1 q2 q3 q4 q5 q6).findings.isSome =
      (isOkB q1 && isOkB q2 && isOkB q3 && isOkB q4 && isOkB q5 && isOkB q6) ∧
    (pattern_check q1 q2 q3 q4 q5 q6).error = firstFindingError q1 q2 q3 q4 q5 q6 := by
  cases q1 <;> cases q2 <;> cases q3 <;> cases q4 <;> cases q5 <;> cases q6 <;>
    exact ⟨rfl, rfl, rfl⟩

/-- **C3.** `warrants_evolution` is exactly the four-way disjunction
(≥1 high-severity friction, ≥2 recurring-friction entries, ≥1 unresolved
contradiction, ≥3 emerging patterns); in particular a findings set with a
single high-severity friction entry and all other categories empty
warrants evolution. -/
theorem warrants_evolution_disjunction :
    (∀ f : Findings,
      (calculate_significance f).warrants_evolution = true ↔
        (1 ≤ highSeverityCount f.recurring_friction ∨
         2 ≤ f.recurring_friction.length ∨
         1 ≤ unresolvedContradictionCount f.belief_contradictions ∨
         3 ≤ f.emerging_patterns.length)) ∧
    (calculate_significance findingsOneHigh).warrants_evolution = true := by
  constructor
  · intro f
    simp [calculate_significance, Bool.or_eq_true, decide_eq_true_eq, or_assoc]
  · decide

/-- **C4.** The significance score is monotone in high-severity friction:
appending one more high-severity entry to `recurring_friction` never
decreases the score, and the high-severity term contributes exactly
`min (count * 15) 30`, saturating at 30 for every count ≥ 2. -/
theorem score_monotone_high_severity :
    (∀ f : Findings,
      (calculate_significance f).score ≤
        (calculate_significance
          { f with recurring_friction := f.recurring_friction ++ [some "high"] }).score) ∧
    (∀ f : Findings,
      (calculate_significance f).score =
        min (highSeverityCount f.recurring_friction * 15) 30 +
        min (f.recurring_friction.length * 5) 20 +
        min (f.emerging_patterns.length * 5) 15 +
        min (f.confirmed_patterns.length * 3) 10 +
        min (unresolvedContradictionCount f.belief_contradictions * 10) 20 +
        min (f.unresolved_questions.length * 2) 5) ∧
    (∀ f : Findings, 2 ≤ highSeverityCount f.recurring_friction →
      min (highSeverityCount f.recurring_friction * 15) 30 = 30) := by
  refine ⟨?_, ?_, ?_⟩
  · intro f
    simp only [calculate_significance, highSeverityCount, List.filter_append,
      List.length_append]
    have h1 : (List.filter (fun s => decide (s = some "high")) [some "high"]).length = 1 := by
      decide
    rw [h1]
    omega
  · intro f
    rfl
  · intro f h
    omega

/-- Witness for C4: at `findingsThreeHigh` the high-severity count is 3 ≥ 2
and the high-severity term evaluates to its saturation value 30. -/
theorem score_monotone_high_severity_witness :
    min (highSeverityCount findingsThreeHigh.recurring_friction * 15) 30 = 30 :=
  score_monotone_high_severity.2.2 findingsThreeHigh (by decide)

/-- **C10.** The significance score is always at most 100 (the six clamped
terms sum to 30+20+15+10+20+5 = 100), and every recommendation band is
reachable, including "urgent" at score ≥ 50. -/
theorem score_bounded_and_bands_reachable :
    (∀ f : Findings, (calculate_significance f).score ≤ 100) ∧
    (50 ≤ (calculate_significance findingsUrgent).score ∧
      (calculate_significance findingsUrgent).recommendation =
        "URGENT: Multiple significant patterns detected. Evolution proposal strongly recommended.") ∧
    ((calculate_significance findingsAttention).recommendation =
        "ATTENTION: Notable patterns emerging. Consider Evolution proposal.") ∧
    ((calculate_significance findingsOneHigh).recommendation =
        "REVIEW: Threshold met for Evolution proposal. Review findings.") ∧
    ((calculate_significance findingsMonitor).recommendation =
        "MONITOR: Patterns developing. Continue observation.") ∧
    ((calculate_significance findingsEmpty).recommendation =
        "STABLE: No significant patterns detected. System operating normally.") := by
  refine ⟨?_, ⟨?_, ?_⟩, ?_, ?_, ?_, ?_⟩
  · intro f
    simp only [calculate_significance]
    have h1 := Nat.min_le_right (highSeverityCount f.recurring_friction * 15) 30
    have h2 := Nat.min_le_right (f.recurring_friction.length * 5) 20
    have h3 := Nat.min_le_right (f.emerging_patterns.length * 5) 15
    have h4 := Nat.min_le_right (f.confirmed_patterns.length * 3) 10
    have h5 := Nat.min_le_right (unresolvedContradictionCount f.belief_contradictions * 10) 20
    have h6 := Nat.min_le_right (f.unresolved_questions.length * 2) 5
    omega
  · decide
  · decide
  · decide
  · decide
  · decide
  · decide

/-- **C7 (counterexample).** Because both finding queries carry `LIMIT 20`,
a graph with 21 Patterns all at occurrence_count 4 (status 'emerging')
violates the claim: not every such Pattern appears in the
emerging-patterns finding. -/
theorem pattern_threshold_cap_cx :
    ¬ ∀ p ∈ patterns21,
        (p.status = none ∨ p.status = some "emerging") →
        p.occurrence_count = PATTERN_CONFIRMATION_THRESHOLD - 1 →
        p ∈ find_emerging_patterns patterns21 ∧
        p ∉ find_confirmed_patterns patterns21 := by
  decide

/-- **C7 (amended).** For a Pattern in the store whose status is one of
the declared values and not 'confirmed': at occurrence_count 4 it
satisfies the emerging query and appears in its result whenever at most
20 patterns match that query, and it never appears in the confirmed
result; at occurrence_count 5 it never appears in the emerging result and
appears in the confirmed result whenever at most 20 patterns match the
confirmed query. -/
theorem pattern_threshold_boundary (ps : List Pattern) (p : Pattern)
    (hmem : p ∈ ps)
    (hstatus : p.status = none ∨ p.status = some "emerging") :
    (p.occurrence_count = PATTERN_CONFIRMATION_THRESHOLD - 1 →
      ((ps.filter emergingCond).length ≤ 20 → p ∈ find_emerging_patterns ps) ∧
      p ∉ find_confirmed_patterns ps) ∧
    (p.occurrence_count = PATTERN_CONFIRMATION_THRESHOLD →
      ((ps.filter confirmedCond).length ≤ 20 → p ∈ find_confirmed_patterns ps) ∧
      p ∉ find_emerging_patterns ps) := by
  constructor
  · intro hc
    constructor
    · intro hcap
      unfold find_emerging_patterns
      rw [List.take_of_length_le (by rw [length_sortByCountDesc]; exact hcap)]
      rw [mem_sortByCountDesc]
      refine List.mem_filter.mpr ⟨hmem, ?_⟩
      rcases hstatus with h | h <;>
        simp [emergingCond, hc, h, PATTERN_EMERGENCE_THRESHOLD,
          PATTERN_CONFIRMATION_THRESHOLD]
    · intro hin
      have := List.take_subset 20 _ hin
      rw [mem_sortByCountDesc] at this
      have hcond := (List.mem_filter.mp this).2
      simp [confirmedCond, hc, PATTERN_CONFIRMATION_THRESHOLD] at hcond
  · intro hc
    constructor
    · intro hcap
      unfold find_confirmed_patterns
      rw [List.take_of_length_le (by rw [length_sortByCountDesc]; exact hcap)]
      rw [mem_sortByCountDesc]
      refine List.mem_filter.mpr ⟨hmem, ?_⟩
      simp [confirmedCond, hc, PATTERN_CONFIRMATION_THRESHOLD]
    · intro hin
      have := List.take_subset 20 _ hin
      rw [mem_sortByCountDesc] at this
      have hcond := (List.mem_filter.mp this).2
      simp [emergingCond, hc, PATTERN_EMERGENCE_THRESHOLD,
        PATTERN_CONFIRMATION_THRESHOLD] at hcond

/-- Witness for C7: a two-pattern store with one emerging-band Pattern
(count 4) and one confirmed Pattern (count 5); both caps hold and the
classification is as amended. -/
theorem pattern_threshold_boundary_witness :
    mkEmergingPat "p01" ∈
      find_emerging_patterns
        [mkEmergingPat "p01",
         { id := "q01", name := "t", occurrence_count := 5, status := some "emerging" }] ∧
    mkEmergingPat "p01" ∉
      find_confirmed_patterns
        [mkEmergingPat "p01",
         { id := "q01", name := "t", occurrence_count := 5, status := some "emerging" }] := by
  have h := pattern_threshold_boundary
    [mkEmergingPat "p01",
     { id := "q01", name := "t", occurrence_count := 5, status := some "emerging" }]
    (mkEmergingPat "p01") (by decide) (Or.inr (by decide))
  have h4 := h.1 (by decide)
  exact ⟨h4.1 (by decide), h4.2⟩

/-- **C6.** Logging the identical description repeatedly (valid category,
starting from a store with no matching Friction): every call returns the
same friction id — the one created by the first call — the k-th call
returns recurrence_count = k (so N after N calls, and the returned count
only ever increases), and is_recurring is false on the first call and
true on every later call. -/
theorem friction_log_monotonic_recurrence (fresh : Nat) (d : List Char)
    (cat : String) (st : List Friction)
    (hcat : cat ∈ validCategories)
    (hclean : find_similar_friction st d = []) :
    ∀ k, 1 ≤ k →
      frictionResultAt fresh d cat st k =
        { success := true, friction_id := some fresh,
          is_recurring := some (decide (2 ≤ k)),
          recurrence_count := some k } := by
  have hfil : st.filter (frictionMatches (lowerChars (d.take 50))) = [] := by
    rcases h : st.filter (frictionMatches (lowerChars (d.take 50))) with _ | ⟨a, l⟩
    · rfl
    · unfold find_similar_friction at hclean
      rw [h] at hclean
      simp at hclean
  intro k hk
  rcases Nat.eq_zero_or_pos (k - 1) with h0 | hpos
  · have hk1 : k = 1 := by omega
    subst hk1
    show (friction_log (fresh + (1 - 1)) d cat (frictionRun fresh d cat st (1 - 1))).1 = _
    norm_num [frictionRun_zero]
    unfold friction_log
    rw [if_pos hcat, hclean]
  · obtain ⟨j, rfl⟩ : ∃ j, k = j + 1 := ⟨k - 1, by omega⟩
    have hj : 1 ≤ j := by omega
    have hfind : find_similar_friction (frictionRun fresh d cat st j) d =
        [{ id := fresh, description := d, recurrence_count := j }] := by
      unfold find_similar_friction
      rw [frictionRun_filter fresh d cat st hcat hfil j hj]
      rfl
    show (friction_log (fresh + (j + 1 - 1)) d cat
        (frictionRun fresh d cat st (j + 1 - 1))).1 = _
    simp only [Nat.add_sub_cancel]
    unfold friction_log
    rw [if_pos hcat, hfind]
    have hne : j ≠ 0 := by omega
    have h2 : 2 ≤ j + 1 := by omega
    simp [hne, h2]

/-- Witness for C6: three calls with description "ab", category "tooling",
on an empty store: the third call returns the first call's id 100,
is_recurring true, recurrence_count 3. -/
theorem friction_log_monotonic_recurrence_witness :
    frictionResultAt 100 ['a', 'b'] "tooling" [] 3 =
      { success := true, friction_id := some 100, is_recurring := some true,
        recurrence_count := some 3 } := by
  have h := friction_log_monotonic_recurrence 100 ['a', 'b'] "tooling" []
    (by decide) rfl 3 (by omega)
  simpa using h

/-- The reduced fractions used for the Synthesizer constants equal the
source decimals. -/
theorem SIMILARITY_THRESHOLD_eq_decimal : SIMILARITY_THRESHOLD = 0.85 := by
  rw [SIMILARITY_THRESHOLD, Rat.mk'_eq_divInt, Rat.divInt_eq_div]
  norm_num

theorem scenario_rationals_eq_decimal :
    ((⟨9, 10, by decide, by decide⟩ : ℚ) = 0.9) ∧
    ((⟨1, 5, by decide, by decide⟩ : ℚ) = 0.2) ∧
    ((⟨7, 10, by decide, by decide⟩ : ℚ) = 0.7) := by
  refine ⟨?_, ?_, ?_⟩ <;>
    · rw [Rat.mk'_eq_divInt, Rat.divInt_eq_div]
      norm_num

/-- **C2 (the code evaluated at the failing input).** On a store with
duplicate Beliefs "a" < "b" (identical content), where "b" has an
outgoing SUPPORTS edge to "yy" carrying attribute confidence 0.9:
deduplication detects the pair and counts it as merged (merged = 1), yet
the graph comes back unchanged — the redirect query's relationship-type
token is the literal "\x7btype(r)\x7d", a parse error whose exception
`_merge_entities` catches — so the removed entity "b" still exists, its
attributed edge still hangs off "b", and "a" gains no edge to "yy".
This contradicts the claim (and the function's own docstring and
"Merged duplicate beliefs" report): no relationship is redirected and
the duplicate is never deleted. -/
theorem dedup_merge_is_noop :
    (deduplicate_entities dedupScenario).1 = 1 ∧
    (deduplicate_entities dedupScenario).2 = dedupScenario ∧
    (∃ n ∈ (deduplicate_entities dedupScenario).2.nodes,
        n.ntype = "Belief" ∧ n.id = "b") ∧
    (∃ e ∈ (deduplicate_entities dedupScenario).2.edges,
        e.src = "b" ∧ e.dst = "yy" ∧ e.attrs = [("confidence", "0.9")]) ∧
    ¬ ∃ e ∈ (deduplicate_entities dedupScenario).2.edges,
        e.src = "a" ∧ e.dst = "yy" := by
  exact ⟨by decide, by decide, by decide, by decide, by decide⟩

/-- **C5.** Consolidation scenario: three observations pairwise at cosine
similarity 0.9 and a fourth at 0.2 to the rest, all older than the age
cutoff.  For every store return order, one run produces exactly one new
Insight, with one MERGED_INTO edge from each of the three similar
observations to it (and from nothing else — the dissimilar observation 4
gets no merge edge), and the observation rows themselves are unchanged
(consolidation neither modifies nor deletes observations). -/
theorem consolidation_scenario :
    ∀ l ∈ permsOf scenarioObs,
      (scenarioRun l).insights.length = 1 ∧
      (scenarioRun l).mergedInto.map Prod.fst ∈ permsOf [1, 2, 3] ∧
      ((scenarioRun l).mergedInto.all fun e => decide (e.2 = 100)) = true ∧
      4 ∉ (scenarioRun l).mergedInto.map Prod.fst ∧
      (scenarioRun l).observations = l := by
  decide

/-- Witness for C5: the scenario in its given store order. -/
theorem consolidation_scenario_witness :
    (scenarioRun scenarioObs).insights.length = 1 ∧
    (scenarioRun scenarioObs).mergedInto.map Prod.fst ∈ permsOf [1, 2, 3] ∧
    ((scenarioRun scenarioObs).mergedInto.all fun e => decide (e.2 = 100)) = true ∧
    4 ∉ (scenarioRun scenarioObs).mergedInto.map Prod.fst ∧
    (scenarioRun scenarioObs).observations = scenarioObs :=
  consolidation_scenario scenarioObs (by decide)

theorem foldl_clauses_fixed (interp : Graph → Clause → Graph)
    (hread : ∀ g c, clauseMutates c = false → interp g c = g) :
    ∀ (cs : List Clause) (g : Graph),
      (∀ c ∈ cs, clauseMutates c = false) → cs.foldl interp g = g := by
  intro cs
  induction cs with
  | nil => intro g _; rfl
  | cons c cs ih =>
    intro g h
    rw [List.foldl_cons, hread g c (h c (by simp))]
    exact ih g fun c' hc' => h c' (by simp [hc'])

theorem runQueries_fixed (interp : Graph → Clause → Graph)
    (hread : ∀ g c, clauseMutates c = false → interp g c = g) :
    ∀ (qs : List Query) (g : Graph),
      (∀ q ∈ qs, queryMutates q = false) → runQueries interp g qs = g := by
  intro qs
  induction qs with
  | nil => intro g _; rfl
  | cons q qs ih =>
    intro g h
    have hq : ∀ c ∈ q.clauses, clauseMutates c = false := by
      have := h q (by simp)
      simpa [queryMutates, List.any_eq_true] using
        fun c hc => by
          by_contra hcc
          exact absurd this (by
            simp [queryMutates, List.any_eq_true]
            exact ⟨c, hc, by simpa using hcc⟩)
    show (q :: qs).foldl (fun acc qq => qq.clauses.foldl interp acc) g = g
    rw [List.foldl_cons, foldl_clauses_fixed interp hread q.clauses g hq]
    exact ih g fun q' hq' => h q' (by simp [hq'])

/-- **C9.** The Pathfinder is read-only: every query `Pathfinder.run`
issues consists solely of read clauses (MATCH/WHERE/WITH/RETURN/ORDER
BY/LIMIT — no CREATE, SET, MERGE or DELETE), and therefore under any
store semantics in which read clauses leave the graph unchanged, running
the whole query stream leaves every node, relationship and property of
any graph unchanged. -/
theorem pathfinder_read_only (interp : Graph → Clause → Graph)
    (hread : ∀ g c, clauseMutates c = false → interp g c = g) (g : Graph) :
    runQueries interp g pathfinderRunQueries = g ∧
    (pathfinderRunQueries.all fun q => !queryMutates q) = true := by
  have hall : (pathfinderRunQueries.all fun q => !queryMutates q) = true := by decide
  refine ⟨runQueries_fixed interp hread pathfinderRunQueries g ?_, hall⟩
  intro q hq
  have := List.all_eq_true.mp hall q hq
  simpa using this

/-- Witness for C9: under the concrete clause semantics `execClause`
(whose write clauses genuinely change the graph), the Pathfinder query
stream fixes the sample graph. -/
theorem pathfinder_read_only_witness :
    runQueries execClause pathfinderSampleGraph pathfinderRunQueries =
      pathfinderSampleGraph :=
  (pathfinder_read_only execClause
    (fun g c hc => by cases c <;> simp_all [clauseMutates, execClause])
    pathfinderSampleGraph).1

/-- **C8.** Stale-question marking is idempotent: for every graph state
and cutoff, running `_mark_stale_questions` a second time on the state
left by the first run reports a count of 0 and changes no question. -/
theorem mark_stale_questions_idempotent (cutoff : Int) (qs : List Question) :
    (mark_stale_questions cutoff (mark_stale_questions cutoff qs).2).1 = 0 ∧
    (mark_stale_questions cutoff (mark_stale_questions cutoff qs).2).2 =
      (mark_stale_questions cutoff qs).2 := by
  constructor
  · simp only [mark_stale_questions, List.length_eq_zero]
    rw [List.filter_eq_nil_iff]
    intro q hq
    rcases List.mem_map.mp hq with ⟨q0, _, rfl⟩
    simp [staleCond_markAbandoned]
  · simp only [mark_stale_questions, List.map_map]
    exact List.map_congr_left fun q _ => markAbandoned_idem cutoff q

end TalosTelemetry
